import Mathlib

/-!
Shallow embedding of the FastAPI backend in `src/main.py` (with the record shapes of
`src/schemas.py`).

The document store is modelled as lists of documents, one list per collection named in the
code; a document is an association list from string keys to JSON-like values.  The store
handle `db` is an `Option Store` (`none` models an unconfigured deployment).  Every
handler is embedded as a Lean function from the handle, the request and the current time
to `Except HTTPError (result × Store)`; raising `HTTPException` is modelled by returning
`Except.error`.

Floating-point arithmetic in the backtest equity formula (`math.sin`, `math.cos`,
`round`) is not modelled bit-for-bit: the per-index equity value is abstracted as an
arbitrary function `equity : Nat → α` of the loop index, and the percent-return statistic
as an arbitrary binary function `rp` of the last and first equity values.  Every claim
about the backtest handler is independent of the concrete float values, so the theorems
quantify over these parameters.

`create_document` and the module-level `db` live in `database.py`, which is not part of
the sources; `create_document` is modelled from the spec (see its doc comment).
-/

namespace AssetPlatform

/-- JSON-like field values of a stored document. -/
inductive Value where
  | null : Value
  | str : String → Value
  | int : Int → Value
  | bool : Bool → Value
  | time : Nat → Value
  | arr : List Value → Value
  | obj : List (String × Value) → Value

/-- A document is an association list of fields, in insertion order. -/
abbrev Doc := List (String × Value)

/-- First value stored under a key, if any. -/
def dLookup : Doc → String → Option Value
  | [], _ => none
  | (k, v) :: rest, key => if k == key then some v else dLookup rest key

/-- Mongo `$set` of a single field: replace the first occurrence of the key, or append
the field if the key is absent. -/
def dSet : Doc → String → Value → Doc
  | [], key, v => [(key, v)]
  | (k, w) :: rest, key, v =>
      if k == key then (key, v) :: rest else (k, w) :: dSet rest key v

/-- Mongo projection `{key: 0}`: drop every field with the given key. -/
def dErase (d : Doc) (key : String) : Doc :=
  d.filter (fun kv => !(kv.1 == key))

/-- Mongo equality filter `{key: "val"}` for a string-valued query, as used by the code
on `name` and `email`. -/
def fieldIsStr (d : Doc) (key val : String) : Bool :=
  match dLookup d key with
  | some (.str s) => s == val
  | _ => false

/-- Mongo equality filter `{key: true}`, as used by the code on `_ensure`. -/
def fieldIsTrue (d : Doc) (key : String) : Bool :=
  match dLookup d key with
  | some (.bool b) => b
  | _ => false

/-- Mongo `$set` with several fields, applied left to right. -/
def applySets (d : Doc) (sets : List (String × Value)) : Doc :=
  sets.foldl (fun d kv => dSet d kv.1 kv.2) d

/-- The database: one list of documents per collection named in the code, plus a counter
supplying the server-assigned identifiers of newly inserted documents. -/
structure Store where
  user : List Doc
  role : List Doc
  product : List Doc
  affiliate : List Doc
  strategy : List Doc
  trade : List Doc
  video : List Doc
  job : List Doc
  audit : List Doc
  contactmessage : List Doc
  nextId : Nat

/-- `db[name]` for the collection names the code uses. -/
def Store.getCol (s : Store) : String → List Doc
  | "user" => s.user
  | "role" => s.role
  | "product" => s.product
  | "affiliate" => s.affiliate
  | "strategy" => s.strategy
  | "trade" => s.trade
  | "video" => s.video
  | "job" => s.job
  | "audit" => s.audit
  | "contactmessage" => s.contactmessage
  | _ => []

/-- Replace the contents of a named collection. -/
def Store.setCol (s : Store) (name : String) (docs : List Doc) : Store :=
  match name with
  | "user" => { s with user := docs }
  | "role" => { s with role := docs }
  | "product" => { s with product := docs }
  | "affiliate" => { s with affiliate := docs }
  | "strategy" => { s with strategy := docs }
  | "trade" => { s with trade := docs }
  | "video" => { s with video := docs }
  | "job" => { s with job := docs }
  | "audit" => { s with audit := docs }
  | "contactmessage" => { s with contactmessage := docs }
  | _ => s

/-- A store with no documents at all. -/
def emptyStore : Store :=
  ⟨[], [], [], [], [], [], [], [], [], [], 0⟩

/-- `collection.insert_one(doc)`: the driver adds a fresh `_id` and appends the
document. -/
def insertOne (s : Store) (c : String) (d : Doc) : Store :=
  { s.setCol c (s.getCol c ++ [("_id", Value.int s.nextId) :: d]) with
    nextId := s.nextId + 1 }

/-- `collection.delete_many(filter)`: remove every document matching the filter
predicate. -/
def deleteMany (s : Store) (c : String) (p : Doc → Bool) : Store :=
  s.setCol c ((s.getCol c).filter (fun d => !(p d)))

/-- `collection.find({key: val})` for a string-valued equality filter, in insertion
order. -/
def findByStrField (s : Store) (c key val : String) : List Doc :=
  (s.getCol c).filter (fun d => fieldIsStr d key val)

/-- Modelled from the spec: `create_document` lives in `database.py`, which is not among
the sources.  Spec 4.1 gives its contract `create(collection, record) -> id`, and spec 3
says every record gets a server-assigned identifier and an implicit insertion timestamp
on creation.  The store-absent failure path of spec 4.1 is handled by the endpoint
wrappers below. -/
def createDoc (s : Store) (c : String) (d : Doc) (now : Nat) : Int × Store :=
  let d' := d ++ [("_id", Value.int s.nextId), ("created_at", Value.time now)]
  (s.nextId, { s.setCol c (s.getCol c ++ [d']) with nextId := s.nextId + 1 })

/-- Result of `raise HTTPException(status_code=..., detail=...)`. -/
structure HTTPError where
  code : Nat
  detail : String
deriving DecidableEq

/-- The fixed error response produced by `_collection` and the heal handler when the
store handle is absent (`db is None`). -/
def dbNotConfigured : HTTPError :=
  ⟨500, "Database not configured"⟩

/-! ### Record dumps (`model_dump()` of the schemas in `src/schemas.py`) -/

/-- `Audit(action=..., actor=..., severity=..., details=...).model_dump()`. -/
def auditDump (action actor severity : String) (details : List (String × Value)) : Doc :=
  [("action", .str action), ("actor", .str actor), ("severity", .str severity),
   ("details", .obj details)]

/-- `Role(name="admin", permissions=["*"]).model_dump()`. -/
def adminRoleDump : Doc :=
  [("name", .str "admin"), ("permissions", .arr [.str "*"])]

/-- `User(name="Administrator", email="admin@local", role="admin",
settings={"theme": "dark"}).model_dump()`; `avatar_url` defaults to `None` and
`is_active` to `True`. -/
def adminUserDump : Doc :=
  [("name", .str "Administrator"), ("email", .str "admin@local"), ("role", .str "admin"),
   ("avatar_url", .null), ("settings", .obj [("theme", .str "dark")]),
   ("is_active", .bool true)]

/-! ### `GET /api/health` -/

/-- The dictionary returned by the health handler.  `time` abstracts the ISO timestamp as
the current instant; the two `env` booleans are the presence flags of `DATABASE_URL` and
`DATABASE_NAME`. -/
structure HealthStatus where
  backend : String
  time : Nat
  envDatabaseUrl : Bool
  envDatabaseName : Bool
  database : String
  collections : List String
deriving DecidableEq

/-- `health()` from `src/main.py`.  The outcome of `db.list_collection_names()` is passed
in as `listNames` (`Except.error e` models the call raising an exception with message
`e`).  The handler is a total function: every exception of the listing call is caught in
the `try`, so the handler itself never raises. -/
def health (db : Option Store) (envUrl envName : Bool) (now : Nat)
    (listNames : Except String (List String)) : HealthStatus :=
  let base : HealthStatus :=
    { backend := "ok", time := now, envDatabaseUrl := envUrl, envDatabaseName := envName,
      database := if db.isSome then "ok" else "error", collections := [] }
  match db with
  | none => base
  | some _ =>
    match listNames with
    | .ok names => { base with collections := names }
    | .error e => { base with database := "error: " ++ e.take 80 }

/-! ### `POST /api/heal` -/

/-- The fixed list `critical` of collection names in `heal`. -/
def critical : List String :=
  ["user", "role", "product", "affiliate", "strategy", "trade", "video", "job", "audit",
   "contactmessage"]

/-- One iteration of the ensure loop in `heal`: insert a `{"_ensure": True, "ts": now}`
marker, then delete every document of the collection matching `{"_ensure": True}`. -/
def ensureStep (now : Nat) (s : Store) (c : String) : Store :=
  let s1 := insertOne s c [("_ensure", Value.bool true), ("ts", Value.time now)]
  deleteMany s1 c (fun d => fieldIsTrue d "_ensure")

/-- `{"status": "ok", "ensured": [...]}`. -/
structure HealResult where
  status : String
  ensured : List String
deriving DecidableEq

/-- Body of `heal()` once `db` is known to be present: ensure the ten critical
collections, seed the admin role and admin user when no matching document exists, and
append one audit record. -/
def healBody (s : Store) (now : Nat) : HealResult × Store :=
  let s := critical.foldl (ensureStep now) s
  let roles := (findByStrField s "role" "name" "admin").take 1
  let s := if roles.isEmpty then (createDoc s "role" adminRoleDump now).2 else s
  let admins := (findByStrField s "user" "email" "admin@local").take 1
  let s := if admins.isEmpty then (createDoc s "user" adminUserDump now).2 else s
  let s := (createDoc s "audit"
    (auditDump "self_heal" "system" "info" [("ensured", .arr (critical.map .str))])
    now).2
  ({ status := "ok", ensured := critical }, s)

/-- `heal()` from `src/main.py`. -/
def heal (db : Option Store) (now : Nat) : Except HTTPError (HealResult × Store) :=
  match db with
  | none => .error dbNotConfigured
  | some s => .ok (healBody s now)

/-! ### `POST /api/users` and `POST /api/contact` -/

/-- Request body of `create_user` (`User` in `src/schemas.py`). -/
structure UserIn where
  name : String
  email : String
  role : String
  avatarUrl : Option String
  settings : List (String × Value)
  isActive : Bool

/-- `model_dump()` of a `User`. -/
def userDump (u : UserIn) : Doc :=
  [("name", .str u.name), ("email", .str u.email), ("role", .str u.role),
   ("avatar_url", (u.avatarUrl.map Value.str).getD .null),
   ("settings", .obj u.settings), ("is_active", .bool u.isActive)]

/-- `create_user()` from `src/main.py`: persist the validated user record, return its
id. -/
def create_user (db : Option Store) (u : UserIn) (now : Nat) :
    Except HTTPError (Int × Store) :=
  match db with
  | none => .error dbNotConfigured
  | some s => .ok (createDoc s "user" (userDump u) now)

/-- Request body of `submit_contact` (`ContactMessage` in `src/schemas.py`). -/
structure ContactIn where
  name : String
  email : String
  message : String

/-- `submit_contact()` from `src/main.py`: persist the message and one audit record,
return the message id. -/
def submit_contact (db : Option Store) (m : ContactIn) (now : Nat) :
    Except HTTPError (Int × Store) :=
  match db with
  | none => .error dbNotConfigured
  | some s =>
    let (msgId, s) := createDoc s "contactmessage"
      [("name", .str m.name), ("email", .str m.email), ("message", .str m.message)] now
    let s := (createDoc s "audit"
      (auditDump "contact_submit" m.email "info" [("name", .str m.name)]) now).2
    .ok (msgId, s)

/-! ### `POST /api/trades/backtest` -/

/-- `Strategy` in `src/schemas.py`. -/
structure Strategy where
  name : String
  params : List (String × Value)

/-- `BacktestRequest` in `src/main.py`; `days` is a Python int. -/
structure BacktestRequest where
  symbol : String
  strategy : Strategy
  days : Int

/-- `max(5, min(365, req.days))`. -/
def clampDays (d : Int) : Int :=
  max 5 (min 365 d)

/-- The generated series: entry `i` carries the timestamp `now - (days - i)` (in days,
abstracting `datetime.now(timezone.utc) - timedelta(days=days - i)`) and the equity value
of index `i`. -/
def mkSeries {α : Type} (equity : Nat → α) (now : Int) (days : Nat) : List (Int × α) :=
  (List.range days).map (fun (i : Nat) => (now - ((days : Int) - (i : Int)), equity i))

/-- The `stats` dictionary; `startv`/`endv` are `series[0]["equity"]` and
`series[-1]["equity"]`, `returnPct` abstracts `round((end/start - 1) * 100, 2)`. -/
structure BtStats (α : Type) where
  startv : α
  endv : α
  returnPct : α
deriving DecidableEq

/-- Series and stats of `backtest`, abstracted over the float-valued equity formula.
`none` models the `IndexError` of `series[0]` on an empty series (never reached, since
the clamped day count is at least 5). -/
def backtestCore {α : Type} (equity : Nat → α) (rp : α → α → α) (now : Int)
    (days : Int) : Option (List (Int × α) × BtStats α) :=
  let d := (clampDays days).toNat
  let series := mkSeries equity now d
  match series.head?, series.getLast? with
  | some h, some l =>
      some (series, { startv := h.2, endv := l.2, returnPct := rp l.2 h.2 })
  | _, _ => none

/-- `model_dump()` of a `BacktestRequest`, stored as the job payload. -/
def backtestPayload (req : BacktestRequest) : List (String × Value) :=
  [("symbol", .str req.symbol),
   ("strategy", .obj [("name", .str req.strategy.name), ("params", .obj req.strategy.params)]),
   ("days", .int req.days)]

/-- `backtest()` from `src/main.py`: generate the deterministic series and stats, persist
one completed job record, and return series and stats. -/
def backtest {α : Type} (db : Option Store) (req : BacktestRequest) (equity : Nat → α)
    (rp : α → α → α) (nowDay : Int) (now : Nat) :
    Except HTTPError ((List (Int × α) × BtStats α) × Store) :=
  match db with
  | none => .error dbNotConfigured
  | some s =>
    match backtestCore equity rp nowDay req.days with
    | none => .error ⟨500, "Internal Server Error"⟩
    | some (series, stats) =>
      let s := (createDoc s "job"
        [("kind", .str "backtest"), ("status", .str "completed"),
         ("payload", .obj (backtestPayload req)), ("owner_email", .null)] now).2
      .ok ((series, stats), s)

/-! ### `POST /api/youtube/script` -/

/-- `ScriptRequest` in `src/main.py`; `duration_min` is a Python int. -/
structure ScriptRequest where
  topic : String
  style : String
  durationMin : Int

/-- The five-entry `outline` list of `generate_script`. -/
def scriptOutline (req : ScriptRequest) : List String :=
  ["Hook: surprising fact about " ++ req.topic,
   "What you\x27ll learn in " ++ toString req.durationMin ++ " minutes",
   "Three key ideas",
   "Quick demo",
   "Call to action"]

/-- The four paragraphs of the script body. -/
def scriptParagraphs (req : ScriptRequest) : List String :=
  ["Welcome! In this " ++ req.style ++ " video, we\x27ll cover " ++ req.topic ++
     " in just " ++ toString req.durationMin ++ " minutes.",
   "First, let\x27s ground the problem: why " ++ req.topic ++ " matters.",
   "Then we\x27ll break it down into simple steps you can apply today.",
   "Stick around for a short demo and a quick recap!"]

/-- `"\n\n".join(paragraphs)`. -/
def scriptContent (req : ScriptRequest) : String :=
  String.intercalate "\n\n" (scriptParagraphs req)

/-- The title of the persisted `Video` record. -/
def videoTitle (req : ScriptRequest) : String :=
  req.topic ++ " in " ++ toString req.durationMin ++ " minutes"

/-- `generate_script()` from `src/main.py`: persist a draft video and an audit record,
return id, outline and script. -/
def generate_script (db : Option Store) (req : ScriptRequest) (now : Nat) :
    Except HTTPError ((Int × List String × String) × Store) :=
  match db with
  | none => .error dbNotConfigured
  | some s =>
    let (videoId, s) := createDoc s "video"
      [("title", .str (videoTitle req)), ("script", .str (scriptContent req)),
       ("status", .str "draft"), ("metadata", .obj [])] now
    let s := (createDoc s "audit"
      (auditDump "script_generate" "system" "info" [("topic", .str req.topic)]) now).2
    .ok ((videoId, scriptOutline req, scriptContent req), s)

/-! ### `POST /api/settings` -/

/-- `SettingsUpdate` in `src/main.py`. -/
structure SettingsUpdate where
  email : String
  settings : List (String × Value)

/-- Apply `f` to the first element satisfying `p`; `none` when no element matches. -/
def updateFirst (p : Doc → Bool) (f : Doc → Doc) : List Doc → Option (List Doc)
  | [] => none
  | d :: rest =>
      if p d then some (f d :: rest) else (updateFirst p f rest).map (d :: ·)

/-- The `$set` document of `update_settings`. -/
def settingsSetFields (req : SettingsUpdate) (now : Nat) : List (String × Value) :=
  [("settings", Value.obj req.settings), ("updated_at", Value.time now)]

/-- The document inserted by `update_one(..., upsert=True)` when no document matches:
the driver builds it from the equality filter fields plus a fresh `_id`, then applies the
`$set` fields. -/
def upsertInsertDoc (req : SettingsUpdate) (now : Nat) (id : Int) : Doc :=
  applySets [("_id", Value.int id), ("email", Value.str req.email)]
    (settingsSetFields req now)

/-- `col.update_one({"email": email}, {"$set": sets}, upsert=True)` on the `user`
collection: update the first matching document in place, or insert a fresh one. -/
def updateOneUpsertByEmail (s : Store) (req : SettingsUpdate) (now : Nat) : Store :=
  match updateFirst (fun d => fieldIsStr d "email" req.email)
      (fun d => applySets d (settingsSetFields req now)) s.user with
  | some l => { s with user := l }
  | none =>
      { s with
        user := s.user ++ [upsertInsertDoc req now (Int.ofNat s.nextId)]
        nextId := s.nextId + 1 }

/-- Body of `update_settings()` once `db` is present: upsert, write one audit record,
then re-read the document by email with the `_id` field projected away. -/
def updateSettingsBody (s : Store) (req : SettingsUpdate) (now : Nat) :
    Option Doc × Store :=
  let s := updateOneUpsertByEmail s req now
  let s := (createDoc s "audit" (auditDump "settings_update" req.email "info" []) now).2
  let doc := (s.user.find? (fun d => fieldIsStr d "email" req.email)).map
    (fun d => dErase d "_id")
  (doc, s)

/-- `update_settings()` from `src/main.py`. -/
def update_settings (db : Option Store) (req : SettingsUpdate) (now : Nat) :
    Except HTTPError ((Option Doc) × Store) :=
  match db with
  | none => .error dbNotConfigured
  | some s =>
    let (doc, s) := updateSettingsBody s req now
    .ok (doc, s)

/-! ### Derived notions used in the statements -/

/-- Effect of one ensure iteration on a collection: every document matching
`{"_ensure": True}` is gone. -/
def dropEnsure (l : List Doc) : List Doc :=
  l.filter (fun d => !(fieldIsTrue d "_ensure"))

/-- The role documents named `admin`. -/
def adminRoles (s : Store) : List Doc :=
  findByStrField s "role" "name" "admin"

/-- The user documents with email `admin@local`. -/
def adminUsers (s : Store) : List Doc :=
  findByStrField s "user" "email" "admin@local"

/-- Whether the modelled `db.list_collection_names()` call succeeded. -/
def listOutcomeOk : Except String (List String) → Bool
  | .ok _ => true
  | .error _ => false

/-- Message of the modelled `db.list_collection_names()` exception (empty on success). -/
def listOutcomeMsg : Except String (List String) → String
  | .ok _ => ""
  | .error e => e

/-- The document `create_document` stores for the seeded admin role. -/
def seededRoleDoc (id : Int) (now : Nat) : Doc :=
  adminRoleDump ++ [("_id", Value.int id), ("created_at", Value.time now)]

/-- The document `create_document` stores for the seeded admin user. -/
def seededUserDoc (id : Int) (now : Nat) : Doc :=
  adminUserDump ++ [("_id", Value.int id), ("created_at", Value.time now)]

/-- Condition under which `heal` seeds the admin role: no role document named `admin`
survives the ensure loop. -/
def roleSeedMissing (s : Store) : Bool :=
  ((dropEnsure s.role).filter (fun d => fieldIsStr d "name" "admin")).isEmpty

/-- Condition under which `heal` seeds the admin user: no user document with email
`admin@local` survives the ensure loop. -/
def userSeedMissing (s : Store) : Bool :=
  ((dropEnsure s.user).filter (fun d => fieldIsStr d "email" "admin@local")).isEmpty

/-- The audit record `heal` appends. -/
def healAuditDoc (id : Int) (now : Nat) : Doc :=
  auditDump "self_heal" "system" "info" [("ensured", .arr (critical.map .str))] ++
    [("_id", Value.int id), ("created_at", Value.time now)]

/-- The stored `settings` map of a user document (empty when absent). -/
def settingsOf (d : Doc) : Doc :=
  match dLookup d "settings" with
  | some (.obj m) => m
  | _ => []

/-- A concrete stored user document used to exercise the settings-update path: its
settings map holds the single key `a`. -/
def exampleUserDoc : Doc :=
  [("_id", Value.int 0), ("name", Value.str "N"), ("email", Value.str "e@x"),
   ("settings", Value.obj [("a", Value.int 1)]), ("is_active", Value.bool true)]

/-- A store holding exactly `exampleUserDoc`. -/
def exampleStore : Store :=
  { emptyStore with user := [exampleUserDoc], nextId := 1 }

/-- A settings update for the stored email, supplying the single key `b`. -/
def exampleSettingsReq : SettingsUpdate :=
  ⟨"e@x", [("b", Value.int 2)]⟩

/-! ## Theorems -/

/-- `list(cursor.limit(1))` is empty exactly when the unrestricted query is. -/
theorem takeOne_isEmpty (l : List Doc) : (l.take 1).isEmpty = l.isEmpty := by
  cases l <;> rfl

/-- The ensure loop of `heal` deletes the `{"_ensure": True}` documents of each of the
ten critical collections (its own marker included) and advances the id counter by 10. -/
theorem ensureAll_eq (now : Nat) (s : Store) :
    critical.foldl (ensureStep now) s =
      { user := dropEnsure s.user, role := dropEnsure s.role,
        product := dropEnsure s.product, affiliate := dropEnsure s.affiliate,
        strategy := dropEnsure s.strategy, trade := dropEnsure s.trade,
        video := dropEnsure s.video, job := dropEnsure s.job,
        audit := dropEnsure s.audit, contactmessage := dropEnsure s.contactmessage,
        nextId := s.nextId + 10 } := by
  simp [critical, ensureStep, insertOne, deleteMany, Store.getCol, Store.setCol,
    dropEnsure, List.filter_append, fieldIsTrue, dLookup]

/-- Full characterization of the heal routine: ensure-filtered collections, conditional
seeding of the admin role and admin user, one audit record, fixed response. -/
theorem healBody_eq (s : Store) (now : Nat) :
    healBody s now =
      (⟨"ok", critical⟩,
        { user := dropEnsure s.user ++
            (if userSeedMissing s then
              [seededUserDoc
                (Int.ofNat (s.nextId + 10 + (if roleSeedMissing s then 1 else 0))) now]
            else [])
          role := dropEnsure s.role ++
            (if roleSeedMissing s then [seededRoleDoc (Int.ofNat (s.nextId + 10)) now]
             else [])
          product := dropEnsure s.product
          affiliate := dropEnsure s.affiliate
          strategy := dropEnsure s.strategy
          trade := dropEnsure s.trade
          video := dropEnsure s.video
          job := dropEnsure s.job
          audit := dropEnsure s.audit ++
            [healAuditDoc (Int.ofNat (s.nextId + 10 +
              (if roleSeedMissing s then 1 else 0) +
              (if userSeedMissing s then 1 else 0))) now]
          contactmessage := dropEnsure s.contactmessage
          nextId := s.nextId + 11 + (if roleSeedMissing s then 1 else 0) +
            (if userSeedMissing s then 1 else 0) }) := by
  have hR := Bool.eq_false_or_eq_true
    (((dropEnsure s.role).filter (fun d => fieldIsStr d "name" "admin")).isEmpty)
  have hU := Bool.eq_false_or_eq_true
    (((dropEnsure s.user).filter (fun d => fieldIsStr d "email" "admin@local")).isEmpty)
  unfold healBody
  rw [ensureAll_eq]
  rcases hR with hR | hR <;> rcases hU with hU | hU <;>
    simp [takeOne_isEmpty, hR, hU, roleSeedMissing, userSeedMissing, findByStrField,
      Store.getCol, Store.setCol, createDoc, seededRoleDoc, seededUserDoc, healAuditDoc]

/-- Changing the requested day count to one with the same clamped value leaves the
series-and-stats computation unchanged. -/
theorem backtestCore_congr {α : Type} (equity : Nat → α) (rp : α → α → α) (nowDay : Int)
    {d1 d2 : Int} (h : clampDays d1 = clampDays d2) :
    backtestCore equity rp nowDay d1 = backtestCore equity rp nowDay d2 := by
  unfold backtestCore
  rw [h]

/-- C2: the backtest operation clamps `days` to `[5, 365]`: a request with `days = 1`
yields the same series and stats as `days = 5`, and `days = 10000` the same as
`days = 365` (the persisted job record, which stores the raw request, is outside the
compared response). -/
theorem backtest_days_clamped {α : Type} (s : Store) (symbol : String) (strat : Strategy)
    (equity : Nat → α) (rp : α → α → α) (nowDay : Int) (now : Nat) :
    (backtest (some s) ⟨symbol, strat, 1⟩ equity rp nowDay now).map Prod.fst
        = (backtest (some s) ⟨symbol, strat, 5⟩ equity rp nowDay now).map Prod.fst ∧
      (backtest (some s) ⟨symbol, strat, 10000⟩ equity rp nowDay now).map Prod.fst
        = (backtest (some s) ⟨symbol, strat, 365⟩ equity rp nowDay now).map Prod.fst := by
  constructor
  · show (Except.map Prod.fst (backtest (some s) ⟨symbol, strat, 1⟩ equity rp nowDay now)) = _
    unfold backtest
    rw [backtestCore_congr equity rp nowDay (show clampDays 1 = clampDays 5 by decide)]
    rcases backtestCore equity rp nowDay 5 with _ | ⟨ser, st⟩ <;> rfl
  · unfold backtest
    rw [backtestCore_congr equity rp nowDay
      (show clampDays 10000 = clampDays 365 by decide)]
    rcases backtestCore equity rp nowDay 365 with _ | ⟨ser, st⟩ <;> rfl

/-- C3: the backtest series has exactly the clamped number of entries, and `stats.start`
and `stats.end` are exactly the equity values of the first and last series elements. -/
theorem backtest_series_length_stats {α : Type} (equity : Nat → α) (rp : α → α → α)
    (nowDay : Int) (days : Int) (ser : List (Int × α)) (st : BtStats α)
    (h : backtestCore equity rp nowDay days = some (ser, st)) :
    ser.length = (clampDays days).toNat ∧
      ser.head?.map Prod.snd = some st.startv ∧
      ser.getLast?.map Prod.snd = some st.endv := by
  unfold backtestCore at h
  dsimp only at h
  rcases hh : (mkSeries equity nowDay ((clampDays days).toNat)).head? with _ | h1 <;>
    rcases hl : (mkSeries equity nowDay ((clampDays days).toNat)).getLast? with _ | l1 <;>
    rw [hh, hl] at h
  · simp at h
  · simp at h
  · simp at h
  rw [Option.some.injEq, Prod.mk.injEq] at h
  obtain ⟨hser, hst⟩ := h
  subst hser
  subst hst
  refine ⟨by simp [mkSeries], ?_, ?_⟩
  · rw [hh]
    rfl
  · rw [hl]
    rfl

/-- C3 witness: a concrete run with `days = 1` (clamped to 5). -/
theorem backtest_series_length_stats_witness :
    backtestCore (fun i => (i : Int)) (fun a b => a - b) 0 1 =
        some ([(-5, 0), (-4, 1), (-3, 2), (-2, 3), (-1, 4)],
          ⟨(0 : Int), (4 : Int), (4 : Int) - 0⟩) ∧
      ([((-5 : Int), (0 : Int)), (-4, 1), (-3, 2), (-2, 3), (-1, 4)]).length =
          (clampDays 1).toNat ∧
      ([((-5 : Int), (0 : Int)), (-4, 1), (-3, 2), (-2, 3), (-1, 4)]).head?.map Prod.snd =
          some (BtStats.startv ⟨(0 : Int), (4 : Int), (4 : Int) - 0⟩) ∧
      ([((-5 : Int), (0 : Int)), (-4, 1), (-3, 2), (-2, 3), (-1, 4)]).getLast?.map
          Prod.snd = some (BtStats.endv ⟨(0 : Int), (4 : Int), (4 : Int) - 0⟩) :=
  ⟨by decide,
    backtest_series_length_stats (fun i => (i : Int)) (fun a b => a - b) 0 1
      [(-5, 0), (-4, 1), (-3, 2), (-2, 3), (-1, 4)] ⟨(0 : Int), (4 : Int), (4 : Int) - 0⟩
      (by decide)⟩

/-- C4: script generation always places the topic inside the video title and inside the
first paragraph of the script, and the outline has exactly five entries. -/
theorem generate_script_topic_and_outline (req : ScriptRequest) :
    (∃ p s, videoTitle req = p ++ req.topic ++ s) ∧
      (∃ p s, (scriptParagraphs req).head? = some (p ++ req.topic ++ s)) ∧
      (scriptOutline req).length = 5 := by
  refine ⟨⟨"", " in " ++ toString req.durationMin ++ " minutes", ?_⟩,
    ⟨"Welcome! In this " ++ req.style ++ " video, we\x27ll cover ",
      " in just " ++ toString req.durationMin ++ " minutes.", ?_⟩, rfl⟩
  · simp [videoTitle, String.append_assoc]
  · simp [scriptParagraphs, String.append_assoc]

/-- C6: the health check answers `database = "ok"` exactly when the store handle is
present and listing the collection names succeeds; a listing exception is caught and
reported as an error string (the handler is a total function, so it never raises). -/
theorem health_database_ok_iff (db : Option Store) (envU envN : Bool) (now : Nat)
    (listNames : Except String (List String)) :
    ((health db envU envN now listNames).database = "ok" ↔
        db.isSome = true ∧ listOutcomeOk listNames = true) ∧
      (db.isSome = true → listOutcomeOk listNames = false →
        (health db envU envN now listNames).database =
          "error: " ++ (listOutcomeMsg listNames).take 80) := by
  have hlen : ∀ e : String, "error: " ++ e ≠ "ok" := by
    intro e h
    have hc := congrArg String.length h
    rw [String.length_append] at hc
    rw [show ("error: ").length = 7 from rfl, show ("ok").length = 2 from rfl] at hc
    omega
  rcases db with _ | s <;> rcases listNames with e | names <;>
    simp [health, listOutcomeOk, listOutcomeMsg, hlen]

/-- C6 witness: a present store whose collection listing raises `boom`. -/
theorem health_database_ok_iff_witness :
    ((health (some emptyStore) true false 3 (.error "boom")).database = "ok" ↔
        (some emptyStore).isSome = true ∧
          listOutcomeOk (Except.error "boom") = true) ∧
      (health (some emptyStore) true false 3 (.error "boom")).database =
        "error: " ++ (listOutcomeMsg (Except.error "boom")).take 80 :=
  ⟨(health_database_ok_iff (some emptyStore) true false 3 (.error "boom")).1,
    (health_database_ok_iff (some emptyStore) true false 3 (.error "boom")).2 rfl rfl⟩

/-- C7: with the store handle absent, every write-requiring endpoint fails with the one
fixed error response, while the health endpoint reports the absence without failing. -/
theorem absent_db_write_endpoints_fail {α : Type} (now : Nat) (nowDay : Int) (u : UserIn)
    (m : ContactIn) (breq : BacktestRequest) (equity : Nat → α) (rp : α → α → α)
    (sreq : ScriptRequest) (ureq : SettingsUpdate) (envU envN : Bool)
    (listNames : Except String (List String)) :
    heal none now = .error dbNotConfigured ∧
      create_user none u now = .error dbNotConfigured ∧
      submit_contact none m now = .error dbNotConfigured ∧
      backtest none breq equity rp nowDay now = .error dbNotConfigured ∧
      generate_script none sreq now = .error dbNotConfigured ∧
      update_settings none ureq now = .error dbNotConfigured ∧
      (health none envU envN now listNames).database = "error" :=
  ⟨rfl, rfl, rfl, rfl, rfl, rfl, rfl⟩

/-- Deleting the `_ensure` documents can only shrink any filtered sub-collection. -/
theorem length_filter_dropEnsure_le (p : Doc → Bool) (l : List Doc) :
    ((dropEnsure l).filter p).length ≤ (l.filter p).length :=
  ((List.filter_sublist l).filter p).length_le

/-- Deleting the `_ensure` documents twice is the same as deleting them once. -/
theorem dropEnsure_idem (l : List Doc) : dropEnsure (dropEnsure l) = dropEnsure l := by
  unfold dropEnsure
  rw [List.filter_eq_self]
  intro a ha
  exact List.of_mem_filter (p := fun d => !(fieldIsTrue d "_ensure")) ha

/-- `dropEnsure` distributes over append. -/
theorem dropEnsure_append (l1 l2 : List Doc) :
    dropEnsure (l1 ++ l2) = dropEnsure l1 ++ dropEnsure l2 :=
  List.filter_append _ _

/-- The seeded role document is named `admin`. -/
theorem seededRoleDoc_is_admin (id : Int) (t : Nat) :
    fieldIsStr (seededRoleDoc id t) "name" "admin" = true := rfl

/-- The seeded user document has email `admin@local`. -/
theorem seededUserDoc_is_admin (id : Int) (t : Nat) :
    fieldIsStr (seededUserDoc id t) "email" "admin@local" = true := rfl

/-- The seeded role document carries no `_ensure` field. -/
theorem seededRoleDoc_not_ensure (id : Int) (t : Nat) :
    fieldIsTrue (seededRoleDoc id t) "_ensure" = false := rfl

/-- The seeded user document carries no `_ensure` field. -/
theorem seededUserDoc_not_ensure (id : Int) (t : Nat) :
    fieldIsTrue (seededUserDoc id t) "_ensure" = false := rfl

/-- The heal audit document carries no `_ensure` field. -/
theorem healAuditDoc_not_ensure (id : Int) (t : Nat) :
    fieldIsTrue (healAuditDoc id t) "_ensure" = false := rfl

/-- A list of length one is not empty. -/
theorem isEmpty_eq_false_of_length_eq_one {l : List Doc} (h : l.length = 1) :
    l.isEmpty = false := by
  cases l <;> simp_all

/-- After one heal, exactly one `admin` role document is stored, provided the store did
not already hold two of them. -/
theorem adminRoles_after_heal (s : Store) (t : Nat)
    (hr : (adminRoles s).length ≤ 1) :
    (adminRoles (healBody s t).2).length = 1 := by
  have hle := length_filter_dropEnsure_le (fun d => fieldIsStr d "name" "admin") s.role
  rw [healBody_eq]
  simp only [adminRoles, findByStrField, Store.getCol] at hr ⊢
  rw [List.filter_append]
  cases hm : roleSeedMissing s
  · have hm' : ((dropEnsure s.role).filter
        (fun d => fieldIsStr d "name" "admin")).isEmpty = false := by
      simpa [roleSeedMissing] using hm
    simp only [hm, if_neg Bool.false_ne_true, List.filter_nil, List.append_nil]
    rcases hne : (dropEnsure s.role).filter (fun d => fieldIsStr d "name" "admin") with
      _ | ⟨d, rest⟩
    · rw [hne] at hm'
      simp at hm'
    · rw [hne] at hle
      simp only [List.length_cons] at hle ⊢
      omega
  · have hm' : (dropEnsure s.role).filter (fun d => fieldIsStr d "name" "admin") = [] := by
      have := hm
      simp only [roleSeedMissing, List.isEmpty_iff] at this
      exact this
    simp [hm, hm', seededRoleDoc_is_admin]

/-- After one heal, exactly one `admin@local` user document is stored, provided the
store did not already hold two of them. -/
theorem adminUsers_after_heal (s : Store) (t : Nat)
    (hu : (adminUsers s).length ≤ 1) :
    (adminUsers (healBody s t).2).length = 1 := by
  have hle := length_filter_dropEnsure_le (fun d => fieldIsStr d "email" "admin@local")
    s.user
  rw [healBody_eq]
  simp only [adminUsers, findByStrField, Store.getCol] at hu ⊢
  rw [List.filter_append]
  cases hm : userSeedMissing s
  · have hm' : ((dropEnsure s.user).filter
        (fun d => fieldIsStr d "email" "admin@local")).isEmpty = false := by
      simpa [userSeedMissing] using hm
    simp only [hm, if_neg Bool.false_ne_true, List.filter_nil, List.append_nil]
    rcases hne : (dropEnsure s.user).filter (fun d => fieldIsStr d "email" "admin@local")
      with _ | ⟨d, rest⟩
    · rw [hne] at hm'
      simp at hm'
    · rw [hne] at hle
      simp only [List.length_cons] at hle ⊢
      omega
  · have hm' : (dropEnsure s.user).filter
        (fun d => fieldIsStr d "email" "admin@local") = [] := by
      have := hm
      simp only [userSeedMissing, List.isEmpty_iff] at this
      exact this
    simp [hm, hm', seededUserDoc_is_admin]

/-- The collections of a post-heal store carry no `_ensure` documents, so the ensure
loop of a subsequent heal leaves them untouched. -/
theorem healBody_dropEnsure_stable (s : Store) (t : Nat) :
    dropEnsure (healBody s t).2.role = (healBody s t).2.role ∧
      dropEnsure (healBody s t).2.user = (healBody s t).2.user ∧
      dropEnsure (healBody s t).2.audit = (healBody s t).2.audit := by
  rw [healBody_eq]
  refine ⟨?_, ?_, ?_⟩ <;>
    simp only [dropEnsure_append, dropEnsure_idem, List.append_cancel_left_eq] <;>
    [cases roleSeedMissing s; cases userSeedMissing s; skip] <;>
    simp [dropEnsure, healAuditDoc_not_ensure, seededRoleDoc_not_ensure,
      seededUserDoc_not_ensure]

/-- After one heal the admin seeds are present, so a subsequent heal seeds nothing. -/
theorem healBody_seeds_present (s : Store) (t : Nat)
    (hr : (adminRoles s).length ≤ 1) (hu : (adminUsers s).length ≤ 1) :
    roleSeedMissing (healBody s t).2 = false ∧
      userSeedMissing (healBody s t).2 = false := by
  obtain ⟨hrole, huser, _⟩ := healBody_dropEnsure_stable s t
  constructor
  · rw [roleSeedMissing, hrole]
    exact isEmpty_eq_false_of_length_eq_one (adminRoles_after_heal s t hr)
  · rw [userSeedMissing, huser]
    exact isEmpty_eq_false_of_length_eq_one (adminUsers_after_heal s t hu)

/-- C1: sequential heals are idempotent on the admin seeds.  Starting from a store that
does not already hold duplicate admin records, the first heal leaves exactly one `admin`
role document and exactly one `admin@local` user document, and a second heal leaves the
role and user collections exactly as the first did while the audit trail grows by one
record. -/
theorem heal_twice_single_admin (s : Store) (t1 t2 : Nat)
    (hr : (adminRoles s).length ≤ 1) (hu : (adminUsers s).length ≤ 1) :
    (adminRoles (healBody s t1).2).length = 1 ∧
      (adminUsers (healBody s t1).2).length = 1 ∧
      (healBody (healBody s t1).2 t2).2.role = (healBody s t1).2.role ∧
      (healBody (healBody s t1).2 t2).2.user = (healBody s t1).2.user ∧
      (healBody (healBody s t1).2 t2).2.audit.length =
        (healBody s t1).2.audit.length + 1 := by
  obtain ⟨hrole, huser, haudit⟩ := healBody_dropEnsure_stable s t1
  obtain ⟨hrm, hum⟩ := healBody_seeds_present s t1 hr hu
  refine ⟨adminRoles_after_heal s t1 hr, adminUsers_after_heal s t1 hu, ?_, ?_, ?_⟩
  · conv_lhs => rw [healBody_eq]
    simp [hrm, hrole]
  · conv_lhs => rw [healBody_eq]
    simp [hum, huser]
  · conv_lhs => rw [healBody_eq]
    simp [haudit]

/-- C1 witness: two heals of the empty store. -/
theorem heal_twice_single_admin_witness :
    (adminRoles emptyStore).length ≤ 1 ∧ (adminUsers emptyStore).length ≤ 1 ∧
      ((adminRoles (healBody emptyStore 0).2).length = 1 ∧
        (adminUsers (healBody emptyStore 0).2).length = 1 ∧
        (healBody (healBody emptyStore 0).2 1).2.role = (healBody emptyStore 0).2.role ∧
        (healBody (healBody emptyStore 0).2 1).2.user = (healBody emptyStore 0).2.user ∧
        (healBody (healBody emptyStore 0).2 1).2.audit.length =
          (healBody emptyStore 0).2.audit.length + 1) :=
  ⟨by decide, by decide, heal_twice_single_admin emptyStore 0 1 (by decide) (by decide)⟩

/-- Every document surviving `dropEnsure` fails the `{"_ensure": True}` filter. -/
theorem dropEnsure_all_not_ensure (l : List Doc) :
    (dropEnsure l).all (fun d => !(fieldIsTrue d "_ensure")) = true := by
  rw [List.all_eq_true]
  intro d hd
  exact List.of_mem_filter (p := fun d => !(fieldIsTrue d "_ensure")) hd

/-- C10: heal deletes every document whose `_ensure` field is `true` in each of the ten
critical collections — pre-existing ones included, not only the marker it just inserted:
after heal, no document of any critical collection matches `{"_ensure": True}`. -/
theorem heal_purges_ensure_docs (s : Store) (now : Nat) (c : String)
    (hc : c ∈ critical) :
    ((healBody s now).2.getCol c).all (fun d => !(fieldIsTrue d "_ensure")) = true := by
  rw [healBody_eq]
  fin_cases hc <;>
    simp only [Store.getCol, List.all_append, dropEnsure_all_not_ensure, Bool.true_and] <;>
    (try split) <;>
    simp [seededRoleDoc_not_ensure, seededUserDoc_not_ensure, healAuditDoc_not_ensure,
      dropEnsure_all_not_ensure]

/-- C10 witness: a pre-existing `{"_ensure": true}` document in the `product` collection
is gone after heal. -/
theorem heal_purges_ensure_docs_witness :
    "product" ∈ critical ∧
      fieldIsTrue [("_ensure", Value.bool true), ("x", Value.int 3)] "_ensure" = true ∧
      (((healBody
          { emptyStore with
            product := [[("_ensure", Value.bool true), ("x", Value.int 3)],
              [("y", Value.int 4)]] } 5).2.getCol "product").all
        (fun d => !(fieldIsTrue d "_ensure"))) = true :=
  ⟨by decide, rfl,
    heal_purges_ensure_docs
      { emptyStore with
        product := [[("_ensure", Value.bool true), ("x", Value.int 3)],
          [("y", Value.int 4)]] } 5 "product" (by decide)⟩

/-- `$set` stores the new value under its key. -/
theorem dLookup_dSet_same (d : Doc) (k : String) (v : Value) :
    dLookup (dSet d k v) k = some v := by
  induction d with
  | nil => simp [dSet, dLookup]
  | cons kv rest ih =>
    by_cases h : kv.1 = k
    · simp [dSet, dLookup, h]
    · cases kv
      simp_all [dSet, dLookup, h]

/-- `$set` leaves every other key untouched. -/
theorem dLookup_dSet_other (d : Doc) (k : String) (v : Value) (k' : String)
    (h : k' ≠ k) :
    dLookup (dSet d k v) k' = dLookup d k' := by
  induction d with
  | nil => simp [dSet, dLookup, bne_iff_ne, h, Ne.symm h]
  | cons kv rest ih =>
    rcases kv with ⟨ka, va⟩
    by_cases hk : ka = k
    · simp [dSet, dLookup, hk, Ne.symm h, h]
    · simp [dSet, dLookup, hk, ih]

/-- Erasing the key a `$set` just wrote undoes the `$set`. -/
theorem dErase_dSet_same (d : Doc) (k : String) (v : Value) :
    dErase (dSet d k v) k = dErase d k := by
  induction d with
  | nil => simp [dSet, dErase]
  | cons kv rest ih =>
    rcases kv with ⟨ka, va⟩
    by_cases hk : ka = k
    · simp [dSet, dErase, hk]
    · simp [dSet, dErase, hk]
      simpa [dErase] using ih

/-- Erasing an unrelated key commutes with a `$set`. -/
theorem dErase_dSet_other (d : Doc) (k : String) (v : Value) (k' : String)
    (h : k' ≠ k) :
    dErase (dSet d k v) k' = dSet (dErase d k') k v := by
  induction d with
  | nil => simp [dSet, dErase, Ne.symm h]
  | cons kv rest ih =>
    rcases kv with ⟨ka, va⟩
    by_cases hk : ka = k
    · simp [dSet, dErase, hk, Ne.symm h]
    · by_cases hk' : ka = k'
      · simp [dSet, dErase, hk, hk', h]
        simpa [dErase] using ih
      · simp [dSet, dErase, hk, hk']
        simpa [dErase] using ih

/-- `update_one` touches no document when no document matches the filter. -/
theorem updateFirst_eq_none_iff (p : Doc → Bool) (f : Doc → Doc) (l : List Doc) :
    updateFirst p f l = none ↔ ∀ d ∈ l, p d = false := by
  induction l with
  | nil => simp [updateFirst]
  | cons d rest ih =>
    by_cases h : p d = true
    · simp [updateFirst, h]
    · simp only [Bool.not_eq_true] at h
      simp [updateFirst, h, ih]

/-- `update_one` rewrites exactly the first matching document. -/
theorem updateFirst_first (p : Doc → Bool) (f : Doc → Doc) (pre : List Doc) (d0 : Doc)
    (post : List Doc) (hpre : ∀ d ∈ pre, p d = false) (hd0 : p d0 = true) :
    updateFirst p f (pre ++ d0 :: post) = some (pre ++ f d0 :: post) := by
  induction pre with
  | nil => simp [updateFirst, hd0]
  | cons d rest ih =>
    have hd : p d = false := hpre d (by simp)
    have hrest : ∀ d ∈ rest, p d = false := fun d hm => hpre d (by simp [hm])
    simp [updateFirst, hd, ih hrest]

/-- `find_one` returns the first matching document. -/
theorem find_first (p : Doc → Bool) (pre : List Doc) (d0 : Doc) (post : List Doc)
    (hpre : ∀ d ∈ pre, p d = false) (hd0 : p d0 = true) :
    List.find? p (pre ++ d0 :: post) = some d0 := by
  induction pre with
  | nil => simp [List.find?, hd0]
  | cons d rest ih =>
    have hd : p d = false := hpre d (by simp)
    have hrest : ∀ d ∈ rest, p d = false := fun d hm => hpre d (by simp [hm])
    simp [List.find?, hd, ih hrest]

/-- The two `$set` fields of the settings update leave the email field unchanged. -/
theorem applySets_settings_email (req : SettingsUpdate) (now : Nat) (d : Doc)
    (v : String) :
    fieldIsStr (applySets d (settingsSetFields req now)) "email" v =
      fieldIsStr d "email" v := by
  show fieldIsStr (dSet (dSet d "settings" (Value.obj req.settings)) "updated_at"
    (Value.time now)) "email" v = fieldIsStr d "email" v
  unfold fieldIsStr
  rw [dLookup_dSet_other _ _ _ _ (by decide), dLookup_dSet_other _ _ _ _ (by decide)]

/-- If `update_one` rewrote a matching document with a match-preserving function, a
matching document is still found afterwards. -/
theorem updateFirst_preserves_match (p : Doc → Bool) (f : Doc → Doc)
    (hpf : ∀ d, p d = true → p (f d) = true) :
    ∀ (l l' : List Doc), updateFirst p f l = some l' → (l'.find? p).isSome = true := by
  intro l
  induction l with
  | nil =>
    intro l' h
    simp [updateFirst] at h
  | cons d rest ih =>
    intro l' h
    by_cases hd : p d = true
    · simp only [updateFirst, if_pos hd, Option.some.injEq] at h
      subst h
      simp [List.find?_cons_of_pos, hpf d hd]
    · simp only [Bool.not_eq_true] at hd
      cases hr : updateFirst p f rest with
      | none =>
        unfold updateFirst at h
        rw [if_neg (by simp [hd]), hr] at h
        simp at h
      | some r' =>
        unfold updateFirst at h
        rw [if_neg (by simp [hd]), hr] at h
        simp only [Option.map_some', Option.some.injEq] at h
        subst h
        rw [List.find?_cons_of_neg _ (by simp [hd])]
        exact ih r' hr

/-- C8: the settings-update response is exactly the stored user document matching the
request email with its `_id` field stripped (and such a document exists after the
upsert); no other field is removed. -/
theorem update_settings_returns_doc_sans_id (s : Store) (req : SettingsUpdate)
    (now : Nat) :
    ((updateSettingsBody s req now).2.user.find?
        (fun d => fieldIsStr d "email" req.email)).isSome = true ∧
      (updateSettingsBody s req now).1 =
        ((updateSettingsBody s req now).2.user.find?
          (fun d => fieldIsStr d "email" req.email)).map (fun d => dErase d "_id") := by
  refine ⟨?_, rfl⟩
  show ((updateOneUpsertByEmail s req now).user.find?
    (fun d => fieldIsStr d "email" req.email)).isSome = true
  unfold updateOneUpsertByEmail
  cases h : updateFirst (fun d => fieldIsStr d "email" req.email)
      (fun d => applySets d (settingsSetFields req now)) s.user with
  | none =>
    have hall := (updateFirst_eq_none_iff _ _ _).mp h
    have hnew : fieldIsStr (upsertInsertDoc req now (Int.ofNat s.nextId)) "email"
        req.email = true := by
      unfold upsertInsertDoc
      rw [applySets_settings_email]
      simp [fieldIsStr, dLookup]
    rw [find_first _ s.user (upsertInsertDoc req now (Int.ofNat s.nextId)) [] hall hnew]
    rfl
  | some l =>
    exact updateFirst_preserves_match _ _
      (fun d hd => by rw [applySets_settings_email]; exact hd) s.user l h

/-- C9: a settings update whose email matches no stored user creates one by upsert: the
new document is appended to the user collection, matches the email, and is returned
(sans `_id`) in the response. -/
theorem update_settings_new_email_creates (s : Store) (req : SettingsUpdate) (now : Nat)
    (h : ∀ d ∈ s.user, fieldIsStr d "email" req.email = false) :
    (updateSettingsBody s req now).2.user =
        s.user ++ [upsertInsertDoc req now (Int.ofNat s.nextId)] ∧
      fieldIsStr (upsertInsertDoc req now (Int.ofNat s.nextId)) "email" req.email =
        true ∧
      (updateSettingsBody s req now).1 =
        some (dErase (upsertInsertDoc req now (Int.ofNat s.nextId)) "_id") := by
  have hnone := (updateFirst_eq_none_iff (fun d => fieldIsStr d "email" req.email)
    (fun d => applySets d (settingsSetFields req now)) s.user).mpr h
  have hnew : fieldIsStr (upsertInsertDoc req now (Int.ofNat s.nextId)) "email"
      req.email = true := by
    unfold upsertInsertDoc
    rw [applySets_settings_email]
    simp [fieldIsStr, dLookup]
  refine ⟨?_, hnew, ?_⟩
  · show (updateOneUpsertByEmail s req now).user = _
    unfold updateOneUpsertByEmail
    rw [hnone]
  · show ((updateOneUpsertByEmail s req now).user.find?
        (fun d => fieldIsStr d "email" req.email)).map (fun d => dErase d "_id") = _
    unfold updateOneUpsertByEmail
    rw [hnone]
    rw [show ({ s with
        user := s.user ++ [upsertInsertDoc req now (Int.ofNat s.nextId)],
        nextId := s.nextId + 1 } : Store).user =
      s.user ++ upsertInsertDoc req now (Int.ofNat s.nextId) :: [] from rfl]
    rw [find_first _ s.user (upsertInsertDoc req now (Int.ofNat s.nextId)) [] h hnew]
    rfl

/-- C9 witness: an update against the empty store creates and returns the user. -/
theorem update_settings_new_email_creates_witness :
    (updateSettingsBody emptyStore exampleSettingsReq 9).2.user =
        emptyStore.user ++ [upsertInsertDoc exampleSettingsReq 9 (Int.ofNat 0)] ∧
      fieldIsStr (upsertInsertDoc exampleSettingsReq 9 (Int.ofNat 0)) "email"
        exampleSettingsReq.email = true ∧
      (updateSettingsBody emptyStore exampleSettingsReq 9).1 =
        some (dErase (upsertInsertDoc exampleSettingsReq 9 (Int.ofNat 0)) "_id") :=
  update_settings_new_email_creates emptyStore exampleSettingsReq 9 (by decide)

/-- C5 counterexample: the settings update does not merge the supplied settings into the
stored settings map — the pre-existing key `a` of the stored document is gone after an
update supplying only key `b`, so the resulting map is the supplied one, not a merge. -/
theorem update_settings_does_not_merge :
    dLookup (settingsOf exampleUserDoc) "a" = some (Value.int 1) ∧
      (updateSettingsBody exampleStore exampleSettingsReq 9).1 =
        some [("name", Value.str "N"), ("email", Value.str "e@x"),
          ("settings", Value.obj [("b", Value.int 2)]), ("is_active", Value.bool true),
          ("updated_at", Value.time 9)] ∧
      dLookup (settingsOf
        (((updateSettingsBody exampleStore exampleSettingsReq 9).1).getD [])) "a" =
        none ∧
      dLookup (settingsOf
        (((updateSettingsBody exampleStore exampleSettingsReq 9).1).getD [])) "b" =
        some (Value.int 2) :=
  ⟨rfl, rfl, rfl, rfl⟩

/-- C5 (amended): a settings update whose email matches a stored user replaces that
document's settings map with the supplied one and refreshes its update timestamp, while
every other field of the document — and every other document — is left unchanged. -/
theorem update_settings_existing_replaces (s : Store) (req : SettingsUpdate) (now : Nat)
    (pre : List Doc) (d0 : Doc) (post : List Doc)
    (hsplit : s.user = pre ++ d0 :: post)
    (hpre : ∀ d ∈ pre, fieldIsStr d "email" req.email = false)
    (hd0 : fieldIsStr d0 "email" req.email = true) :
    (updateSettingsBody s req now).2.user =
        pre ++ applySets d0 (settingsSetFields req now) :: post ∧
      dLookup (applySets d0 (settingsSetFields req now)) "settings" =
        some (Value.obj req.settings) ∧
      dLookup (applySets d0 (settingsSetFields req now)) "updated_at" =
        some (Value.time now) ∧
      dErase (dErase (applySets d0 (settingsSetFields req now)) "updated_at")
          "settings" =
        dErase (dErase d0 "updated_at") "settings" := by
  have happ : applySets d0 (settingsSetFields req now) =
      dSet (dSet d0 "settings" (Value.obj req.settings)) "updated_at"
        (Value.time now) := rfl
  have hupd := updateFirst_first (fun d => fieldIsStr d "email" req.email)
    (fun d => applySets d (settingsSetFields req now)) pre d0 post hpre hd0
  refine ⟨?_, ?_, ?_, ?_⟩
  · show (updateOneUpsertByEmail s req now).user = _
    unfold updateOneUpsertByEmail
    rw [hsplit, hupd]
  · rw [happ, dLookup_dSet_other _ _ _ _ (by decide), dLookup_dSet_same]
  · rw [happ, dLookup_dSet_same]
  · rw [happ, dErase_dSet_same, dErase_dSet_other _ _ _ _ (by decide), dErase_dSet_same]

/-- C5 witness: the amended claim at the concrete one-user store. -/
theorem update_settings_existing_replaces_witness :
    (updateSettingsBody exampleStore exampleSettingsReq 9).2.user =
        [] ++ applySets exampleUserDoc (settingsSetFields exampleSettingsReq 9) :: [] ∧
      dLookup (applySets exampleUserDoc (settingsSetFields exampleSettingsReq 9))
        "settings" = some (Value.obj exampleSettingsReq.settings) ∧
      dLookup (applySets exampleUserDoc (settingsSetFields exampleSettingsReq 9))
        "updated_at" = some (Value.time 9) ∧
      dErase (dErase (applySets exampleUserDoc
          (settingsSetFields exampleSettingsReq 9)) "updated_at") "settings" =
        dErase (dErase exampleUserDoc "updated_at") "settings" :=
  update_settings_existing_replaces exampleStore exampleSettingsReq 9 [] exampleUserDoc
    [] rfl (by decide) rfl

end AssetPlatform
